import Mathlib

/-!
Verification of the WhisperingCat settings module (`src/settings.py`).

The module defines enumerations (`ModelSize`, `Device`, `ComputeType`, a
pycountry-derived `LanguageCode`), a pydantic `Settings` model with two
`mode="after"` model validators, and two activation hooks (`activated`,
`after_cat_bootstrap`) that configure the external `LocalWhisper`
model-provider and conditionally acquire a model instance.

The embedding below translates the pydantic construction pipeline into a
total function `construct : Payload → Except String Settings`, and the two
hooks into state transformers over the provider's observable state
(`WhisperState`), with Python `KeyError` surfaced as `Except.error`.
-/

/-- Language codes.  In the source (`settings.py` lines 13-20) the
`LanguageCode` enum is derived from the external pycountry data set
(uppercase two-letter key, lowercase two-letter value).  The data set is
external to the repository, so a language code is represented here by its
lowercase two-letter value; only `EN` is needed (the schema default). -/
structure LanguageCode where
  code : String
  deriving DecidableEq, Repr

def LanguageCode.EN : LanguageCode := ⟨"en"⟩

/-- `ModelSize` enum (`settings.py` lines 23-36). -/
inductive ModelSize where
  | TINY | TINY_EN | BASE | BASE_EN | SMALL | SMALL_EN
  | MEDIUM | MEDIUM_EN | LARGE_V1 | LARGE_V2 | LARGE_V3 | LARGE
  | OTHER
  deriving DecidableEq, Repr

/-- `Device` enum (`settings.py` lines 39-42). -/
inductive Device where
  | CPU | CUDA | AUTO
  deriving DecidableEq, Repr

/-- `ComputeType` enum (`settings.py` lines 45-53). -/
inductive ComputeType where
  | INT8 | INT8_FLOAT32 | INT8_FLOAT16 | INT8_BFLOAT16
  | INT16 | FLOAT16 | BFLOAT16 | FLOAT32
  deriving DecidableEq, Repr

/-- Pydantic `SecretStr`: wraps the raw secret string. -/
structure SecretStr where
  value : String
  deriving DecidableEq, Repr

/-- The display/serialisation of a pydantic `SecretStr`: the constant mask
`**********` for a non-empty secret, and the empty string for an empty
secret (pydantic `_secret_display`). -/
def SecretStr.display (s : SecretStr) : String :=
  if s.value = "" then "" else "**********"

/-- The validated `Settings` record (`settings.py` lines 56-117), field for
field with the source's names and types. -/
structure Settings where
  language : LanguageCode
  use_local_model : Bool
  api_key : SecretStr
  w_model_size : ModelSize
  device : Device
  n_workers : Int
  compute_type : ComputeType
  w_model_path_or_id : String
  deriving DecidableEq, Repr

/-- A construction payload: a mapping from field name to raw value, one
optional slot per schema field (`none` = key absent, default applies). -/
structure Payload where
  language : Option LanguageCode := none
  use_local_model : Option Bool := none
  api_key : Option String := none
  w_model_size : Option ModelSize := none
  device : Option Device := none
  n_workers : Option Int := none
  compute_type : Option ComputeType := none
  w_model_path_or_id : Option String := none
  deriving DecidableEq, Repr

/-- Pydantic's per-field message for violating `ge=1` on `n_workers`. -/
def n_workers_error : String := "Input should be greater than or equal to 1"

/-- Message of `validate_model_path_or_id` (`settings.py` line 110). -/
def model_path_error : String :=
  "Custom Model Path is required when 'Other' is selected in Model Size"

/-- Message of `validate_api_key` (`settings.py` line 116). -/
def api_key_error : String := "OpenAI API Key is required for online mode"

/-- The record built from a payload after default-filling each field
(`settings.py` lines 56-105): every absent field takes its declared
default. -/
def mkSettings (p : Payload) : Settings :=
  { language := p.language.getD LanguageCode.EN,
    use_local_model := p.use_local_model.getD true,
    api_key := ⟨p.api_key.getD ""⟩,
    w_model_size := p.w_model_size.getD ModelSize.BASE,
    device := p.device.getD Device.AUTO,
    n_workers := p.n_workers.getD 1,
    compute_type := p.compute_type.getD ComputeType.FLOAT32,
    w_model_path_or_id := p.w_model_path_or_id.getD "" }

/-- Pydantic construction of `Settings`: per-field checks first (the only
constrained field is `n_workers`, `ge=1`); then the two `mode="after"`
model validators in definition order — `validate_model_path_or_id`
(`settings.py` lines 107-111), then `validate_api_key` (lines 113-117) —
where the first raised `ValueError` aborts construction. -/
def construct (p : Payload) : Except String Settings :=
  if p.n_workers.getD 1 < 1 then
    Except.error n_workers_error
  else if (mkSettings p).w_model_size = ModelSize.OTHER ∧
      (mkSettings p).w_model_path_or_id = "" then
    Except.error model_path_error
  else if (mkSettings p).use_local_model = false ∧
      (mkSettings p).api_key.value = "" then
    Except.error api_key_error
  else
    Except.ok (mkSettings p)

/-- Whether a construction attempt succeeded. -/
def isSuccess {α : Type} : Except String α → Bool
  | Except.ok _ => true
  | Except.error _ => false

/-- A raw persisted value, as found in the mapping returned by
`load_settings`; `truthy` is Python truthiness. -/
inductive RawVal where
  | vBool (b : Bool)
  | vStr (s : String)
  | vInt (n : Int)
  deriving DecidableEq, Repr

def RawVal.truthy : RawVal → Bool
  | RawVal.vBool b => b
  | RawVal.vStr s => s != ""
  | RawVal.vInt n => n != 0

/-- The raw mapping returned by `load_settings`: key-value pairs, looked up
by key as a Python dict. -/
abbrev RawSettings : Type := List (String × RawVal)

/-- Modelled from the spec: the observable state of the external
`LocalWhisper` model-provider (module `.transcribe`, not among the visible
sources).  Per the spec it exposes a settable `download_path` attribute and
a `get_instance(settings)` create-or-fetch operation; `get_instance_calls`
records the argument of each `get_instance` call made by the hooks. -/
structure WhisperState where
  download_path : Option String
  get_instance_calls : List RawSettings
  deriving DecidableEq, Repr

/-- The outcome of running a hook: the provider state after the hook (class
attributes mutated before a raise keep their new value, as in Python) and
the uncaught exception, if any. -/
structure HookResult where
  state : WhisperState
  error : Option String
  deriving DecidableEq, Repr

/-- A plugin-context object: `.path` and the value its `load_settings()`
loader yields (`None` or a raw mapping). -/
structure PluginCtx where
  path : String
  load_settings : Option RawSettings

/-- The MadHatter registry: `get_plugin()` yields the active plugin. -/
structure MadHatterCtx where
  get_plugin : PluginCtx

/-- The host-context object passed to the bootstrap hook: exposes the
registry as `cat.mad_hatter`. -/
structure CatCtx where
  mad_hatter : MadHatterCtx

/-- The `activated` hook (`settings.py` lines 125-133): set
`LocalWhisper.download_path` to `<plugin path>/models`, load the settings,
and if the loaded mapping is truthy (non-None, non-empty) index it at
`"use_local_model"` — a Python `KeyError` (recorded in `HookResult.error`)
when the key is absent — calling `get_instance(settings)` when that value
is truthy. -/
def activated (plugin : PluginCtx) (st : WhisperState) : HookResult :=
  let st1 : WhisperState :=
    { st with download_path := some (plugin.path ++ "/models") }
  match plugin.load_settings with
  | none => ⟨st1, none⟩
  | some settings =>
    if settings.isEmpty then
      ⟨st1, none⟩
    else
      match List.lookup "use_local_model" settings with
      | none => ⟨st1, some "KeyError: use_local_model"⟩
      | some v =>
        if v.truthy then
          ⟨{ st1 with
             get_instance_calls := st1.get_instance_calls ++ [settings] }, none⟩
        else
          ⟨st1, none⟩

/-- The `after_cat_bootstrap` hook (`settings.py` lines 136-144): same two
steps as `activated`, but the download path comes from
`MadHatter().get_plugin().path` and the settings from
`cat.mad_hatter.get_plugin().load_settings()`. -/
def after_cat_bootstrap (madHatter : MadHatterCtx) (cat : CatCtx)
    (st : WhisperState) : HookResult :=
  let st1 : WhisperState :=
    { st with download_path := some (madHatter.get_plugin.path ++ "/models") }
  match cat.mad_hatter.get_plugin.load_settings with
  | none => ⟨st1, none⟩
  | some settings =>
    if settings.isEmpty then
      ⟨st1, none⟩
    else
      match List.lookup "use_local_model" settings with
      | none => ⟨st1, some "KeyError: use_local_model"⟩
      | some v =>
        if v.truthy then
          ⟨{ st1 with
             get_instance_calls := st1.get_instance_calls ++ [settings] }, none⟩
        else
          ⟨st1, none⟩

/-- Whether the loaded settings value makes a hook call `get_instance`:
non-empty mapping whose `use_local_model` value exists and is truthy. -/
def acquisitionFlag : Option RawSettings → Bool
  | none => false
  | some s =>
    !s.isEmpty &&
      (match List.lookup "use_local_model" s with
       | some v => v.truthy
       | none => false)

/-- The `get_instance` calls a hook run appends for a loaded settings
value. -/
def acquisitionCalls (o : Option RawSettings) : List RawSettings :=
  match o with
  | none => []
  | some s => if acquisitionFlag (some s) then [s] else []

/-- Whether a loaded settings value sends a hook into the `KeyError`
branch: a non-empty mapping lacking the `use_local_model` key. -/
def keyErrorCase : Option RawSettings → Bool
  | none => false
  | some s => !s.isEmpty && (List.lookup "use_local_model" s).isNone

/-! Helper lemmas shared across the claims. -/

/-- A successful construction returns exactly the default-filled record. -/
theorem construct_ok_eq (p : Payload) (s : Settings)
    (h : construct p = Except.ok s) : s = mkSettings p := by
  unfold construct at h
  split_ifs at h
  injection h with h2
  exact h2.symm

/-- Closed form of the `activated` hook: the download path is always set,
`get_instance` is called on the settings exactly when the acquisition
condition holds, and a `KeyError` escapes exactly in the missing-key
case. -/
theorem activated_eq (plugin : PluginCtx) (st : WhisperState) :
    activated plugin st =
      ⟨⟨some (plugin.path ++ "/models"),
        st.get_instance_calls ++ acquisitionCalls plugin.load_settings⟩,
       if keyErrorCase plugin.load_settings then
         some "KeyError: use_local_model"
       else none⟩ := by
  obtain ⟨ppath, pls⟩ := plugin
  cases pls with
  | none => simp [activated, keyErrorCase, acquisitionCalls]
  | some s =>
    cases s with
    | nil => simp [activated, keyErrorCase, acquisitionCalls, acquisitionFlag]
    | cons kv rest =>
      cases hlk : List.lookup "use_local_model" (kv :: rest) with
      | none =>
        simp [activated, keyErrorCase, acquisitionCalls, acquisitionFlag, hlk]
      | some v =>
        by_cases hv : v.truthy
        · simp [activated, keyErrorCase, acquisitionCalls, acquisitionFlag,
            hlk, hv]
        · simp [activated, keyErrorCase, acquisitionCalls, acquisitionFlag,
            hlk, hv]

/-- `after_cat_bootstrap` is `activated` run on the plugin context assembled
from the registry lookups. -/
theorem after_cat_bootstrap_as_activated (mh : MadHatterCtx) (cat : CatCtx)
    (st : WhisperState) :
    after_cat_bootstrap mh cat st
      = activated ⟨mh.get_plugin.path, cat.mad_hatter.get_plugin.load_settings⟩
          st := rfl

/-! The claims. -/

/-- C4: constructing a `Settings` record from the empty payload succeeds
and yields language = EN, use-local-model = true, api-key = "",
model-size = BASE, device = AUTO, worker-count = 1,
compute-type = FLOAT32, custom-model-path-or-id = "". -/
theorem c4_default_construction :
    construct {} = Except.ok
      { language := LanguageCode.EN, use_local_model := true,
        api_key := ⟨""⟩, w_model_size := ModelSize.BASE,
        device := Device.AUTO, n_workers := 1,
        compute_type := ComputeType.FLOAT32, w_model_path_or_id := "" } := rfl

/-- C5: a payload whose worker-count is below 1 makes construction fail
(with pydantic's `ge=1` violation), and every successfully constructed
record has worker-count at least 1. -/
theorem c5_n_workers_ge_one :
    (∀ (p : Payload) (n : Int), p.n_workers = some n → n < 1 →
        construct p = Except.error n_workers_error) ∧
    (∀ (p : Payload) (s : Settings), construct p = Except.ok s →
        1 ≤ s.n_workers) := by
  constructor
  · intro p n hn hlt
    unfold construct
    rw [hn]
    simp only [Option.getD_some]
    rw [if_pos hlt]
  · intro p s h
    have hs : s = mkSettings p := construct_ok_eq p s h
    have hw : ¬ p.n_workers.getD 1 < 1 := by
      intro hlt
      rw [construct, if_pos hlt] at h
      exact Except.noConfusion h
    subst hs
    simp only [mkSettings]
    omega

/-- Witness for C5 at worker-count 0 (failure) and the empty payload
(success with worker-count 1). -/
theorem c5_n_workers_ge_one_witness :
    construct { n_workers := some 0 } = Except.error n_workers_error ∧
    1 ≤ (mkSettings {}).n_workers :=
  ⟨c5_n_workers_ge_one.1 { n_workers := some 0 } 0 rfl (by decide),
   c5_n_workers_ge_one.2 {} (mkSettings {}) rfl⟩

/-- C2 counterexample: a payload with model-size = OTHER, empty custom
path, and worker-count 0 fails with the per-field worker-count message,
not with the message the claim requires for every such payload. -/
theorem c2_counterexample :
    construct { w_model_size := some ModelSize.OTHER,
                w_model_path_or_id := some "", n_workers := some 0 }
      = Except.error n_workers_error ∧
    n_workers_error ≠ model_path_error := by
  exact ⟨rfl, by decide⟩

/-- C2 (amended): provided the per-field checks pass (worker-count at
least 1), every payload with model-size = OTHER and empty (or absent)
custom-model-path-or-id fails with "Custom Model Path is required when
'Other' is selected in Model Size"; and a payload with model-size = OTHER,
a non-empty custom path and every other field at its default
constructs successfully. -/
theorem c2_other_requires_path :
    (∀ p : Payload, p.w_model_size = some ModelSize.OTHER →
        p.w_model_path_or_id.getD "" = "" →
        1 ≤ p.n_workers.getD 1 →
        construct p = Except.error model_path_error) ∧
    (∀ path : String, path ≠ "" →
        isSuccess (construct { w_model_size := some ModelSize.OTHER,
                               w_model_path_or_id := some path }) = true) := by
  constructor
  · intro p hsize hpath hw
    have h1 : ¬ p.n_workers.getD 1 < 1 := by omega
    have h2 : (mkSettings p).w_model_size = ModelSize.OTHER := by
      simp [mkSettings, hsize]
    have h3 : (mkSettings p).w_model_path_or_id = "" := by
      simp [mkSettings, hpath]
    simp [construct, h1, h2, h3]
  · intro path hpath
    simp [construct, isSuccess, mkSettings, hpath]

/-- Witness for C2 (amended): applies the theorem at a payload holding only
model-size = OTHER (failure) and at a concrete custom path (success). -/
theorem c2_other_requires_path_witness :
    construct { w_model_size := some ModelSize.OTHER }
      = Except.error model_path_error ∧
    isSuccess (construct { w_model_size := some ModelSize.OTHER,
                           w_model_path_or_id := some "my-model" }) = true :=
  ⟨c2_other_requires_path.1 { w_model_size := some ModelSize.OTHER }
     rfl rfl (by decide),
   c2_other_requires_path.2 "my-model" (by decide)⟩

/-- C3 counterexample: a payload with use-local-model = false and empty
api-key that also selects model-size = OTHER with an empty custom path
fails with the custom-model-path message (the first model validator), not
with the api-key message the claim requires for every such payload. -/
theorem c3_counterexample :
    construct { use_local_model := some false, api_key := some "",
                w_model_size := some ModelSize.OTHER,
                w_model_path_or_id := some "" }
      = Except.error model_path_error ∧
    model_path_error ≠ api_key_error := by
  exact ⟨rfl, by decide⟩

/-- C3 (amended): provided the per-field checks pass (worker-count at
least 1) and the first model validator does not fire (model-size is not
OTHER with an empty custom path), every payload with use-local-model =
false and empty (or absent) api-key fails with "OpenAI API Key is required
for online mode"; and a payload with use-local-model = false, a non-empty
api-key and every other field at its default constructs successfully. -/
theorem c3_online_requires_key :
    (∀ p : Payload, p.use_local_model = some false →
        p.api_key.getD "" = "" →
        1 ≤ p.n_workers.getD 1 →
        ¬(p.w_model_size.getD ModelSize.BASE = ModelSize.OTHER ∧
            p.w_model_path_or_id.getD "" = "") →
        construct p = Except.error api_key_error) ∧
    (∀ key : String, key ≠ "" →
        isSuccess (construct { use_local_model := some false,
                               api_key := some key }) = true) := by
  constructor
  · intro p hlocal hkey hw hruleA
    have h1 : ¬ p.n_workers.getD 1 < 1 := by omega
    have h2 : ¬((mkSettings p).w_model_size = ModelSize.OTHER ∧
        (mkSettings p).w_model_path_or_id = "") := by
      simpa [mkSettings] using hruleA
    have h3 : (mkSettings p).use_local_model = false := by
      simp [mkSettings, hlocal]
    have h4 : (mkSettings p).api_key.value = "" := by
      simp [mkSettings, hkey]
    simp [construct, h1, h2, h3, h4]
  · intro key hkey
    simp [construct, isSuccess, mkSettings, hkey]

/-- Witness for C3 (amended): applies the theorem at a payload holding only
use-local-model = false and empty api-key (failure) and at a concrete
non-empty api-key (success). -/
theorem c3_online_requires_key_witness :
    construct { use_local_model := some false }
      = Except.error api_key_error ∧
    isSuccess (construct { use_local_model := some false,
                           api_key := some "sk-test" }) = true :=
  ⟨c3_online_requires_key.1 { use_local_model := some false }
     rfl rfl (by decide) (by decide),
   c3_online_requires_key.2 "sk-test" (by decide)⟩

/-- C6 counterexample: a payload violating both cross-field rules whose
worker-count is 0 fails with the per-field worker-count message, not with
the first cross-field rule's message as the claim requires. -/
theorem c6_counterexample :
    construct { use_local_model := some false, api_key := some "",
                w_model_size := some ModelSize.OTHER,
                w_model_path_or_id := some "", n_workers := some 0 }
      = Except.error n_workers_error ∧
    n_workers_error ≠ model_path_error := by
  exact ⟨rfl, by decide⟩

/-- C6 (amended): provided the per-field checks pass (worker-count at
least 1), every payload violating both cross-field rules — model-size =
OTHER with empty custom path, and use-local-model = false with empty
api-key — fails with only the first failing check's message, "Custom Model
Path is required when 'Other' is selected in Model Size", with no
aggregation of both errors. -/
theorem c6_first_check_reported (p : Payload)
    (hsize : p.w_model_size = some ModelSize.OTHER)
    (hpath : p.w_model_path_or_id.getD "" = "")
    (_hlocal : p.use_local_model = some false)
    (_hkey : p.api_key.getD "" = "")
    (hw : 1 ≤ p.n_workers.getD 1) :
    construct p = Except.error model_path_error := by
  have h1 : ¬ p.n_workers.getD 1 < 1 := by omega
  have h2 : (mkSettings p).w_model_size = ModelSize.OTHER := by
    simp [mkSettings, hsize]
  have h3 : (mkSettings p).w_model_path_or_id = "" := by
    simp [mkSettings, hpath]
  simp [construct, h1, h2, h3]

/-- Witness for C6 (amended) at a concrete payload violating both
cross-field rules with a valid worker-count. -/
theorem c6_first_check_reported_witness :
    construct { use_local_model := some false, api_key := some "",
                w_model_size := some ModelSize.OTHER,
                w_model_path_or_id := some "", n_workers := some 2 }
      = Except.error model_path_error := by
  exact c6_first_check_reported _ rfl rfl rfl rfl (by decide)

/-- C8: construction is deterministic and pure — two constructions from the
same payload that succeed yield records whose eight field values are
pairwise identical (and a failed construction carries no record at all, by
the type of `construct`). -/
theorem c8_deterministic (p : Payload) (s1 s2 : Settings)
    (h1 : construct p = Except.ok s1) (h2 : construct p = Except.ok s2) :
    s1.language = s2.language ∧ s1.use_local_model = s2.use_local_model ∧
    s1.api_key = s2.api_key ∧ s1.w_model_size = s2.w_model_size ∧
    s1.device = s2.device ∧ s1.n_workers = s2.n_workers ∧
    s1.compute_type = s2.compute_type ∧
    s1.w_model_path_or_id = s2.w_model_path_or_id := by
  have h := h1.symm.trans h2
  injection h with h
  subst h
  exact ⟨rfl, rfl, rfl, rfl, rfl, rfl, rfl, rfl⟩

/-- Witness for C8 at the empty payload, constructed twice. -/
theorem c8_deterministic_witness :
    (mkSettings {}).language = (mkSettings {}).language ∧
    (mkSettings {}).use_local_model = (mkSettings {}).use_local_model ∧
    (mkSettings {}).api_key = (mkSettings {}).api_key ∧
    (mkSettings {}).w_model_size = (mkSettings {}).w_model_size ∧
    (mkSettings {}).device = (mkSettings {}).device ∧
    (mkSettings {}).n_workers = (mkSettings {}).n_workers ∧
    (mkSettings {}).compute_type = (mkSettings {}).compute_type ∧
    (mkSettings {}).w_model_path_or_id = (mkSettings {}).w_model_path_or_id :=
  c8_deterministic {} (mkSettings {}) (mkSettings {}) rfl rfl

/-- C9 counterexample: for the valid payload whose api-key is the ten-star
string (differing from any other valid payload only in its non-empty
api-key), the displayed representation of the constructed record's api-key
field equals — and so contains — the raw secret string. -/
theorem c9_counterexample :
    (construct { api_key := some "**********" }).toOption.map
        (fun s => SecretStr.display s.api_key) = some "**********" ∧
    (construct { api_key := some "**********" }).toOption.map
        (fun s => s.api_key.value) = some "**********" := by
  exact ⟨rfl, rfl⟩

/-- C9 (amended): for every two valid payloads differing only in their
non-empty api-key values, the displayed representation of the resulting
records' api-key field is the same constant mask `**********`, independent
of the secret value (it can still textually contain the raw secret when
the secret itself consists of mask characters). -/
theorem c9_api_key_redacted (p1 p2 : Payload) (k1 k2 : String)
    (s1 s2 : Settings)
    (hk1 : p1.api_key = some k1) (hk2 : p2.api_key = some k2)
    (hne1 : k1 ≠ "") (hne2 : k2 ≠ "")
    (_hdiff : p2 = { p1 with api_key := some k2 })
    (h1 : construct p1 = Except.ok s1) (h2 : construct p2 = Except.ok s2) :
    s1.api_key.display = s2.api_key.display ∧
    s1.api_key.display = "**********" := by
  have e1 : s1 = mkSettings p1 := construct_ok_eq p1 s1 h1
  have e2 : s2 = mkSettings p2 := construct_ok_eq p2 s2 h2
  subst e1
  subst e2
  have v1 : (mkSettings p1).api_key.value = k1 := by simp [mkSettings, hk1]
  have v2 : (mkSettings p2).api_key.value = k2 := by simp [mkSettings, hk2]
  constructor
  · simp [SecretStr.display, v1, v2, hne1, hne2]
  · simp [SecretStr.display, v1, hne1]

/-- Witness for C9 (amended) at two concrete payloads differing only in
their non-empty api-keys. -/
theorem c9_api_key_redacted_witness :
    (mkSettings { api_key := some "k1" }).api_key.display
      = (mkSettings { api_key := some "k2" }).api_key.display ∧
    (mkSettings { api_key := some "k1" }).api_key.display = "**********" :=
  c9_api_key_redacted { api_key := some "k1" } { api_key := some "k2" }
    "k1" "k2" (mkSettings { api_key := some "k1" })
    (mkSettings { api_key := some "k2" })
    rfl rfl (by decide) (by decide) rfl rfl rfl

/-- C1 counterexample: when the loader yields a non-empty mapping that
lacks the `use_local_model` key — so the claim's acquisition condition
fails and the hook is required to return without raising — the `activated`
hook instead raises a `KeyError`. -/
theorem c1_counterexample :
    (activated ⟨"p", some [("language", RawVal.vStr "en")]⟩
        ⟨none, []⟩).error = some "KeyError: use_local_model" ∧
    acquisitionFlag (some [("language", RawVal.vStr "en")]) = false := by
  exact ⟨rfl, rfl⟩

/-- C1 (amended): every `activated` invocation sets the provider's download
path to `<plugin path>/models`; it appends exactly one `get_instance` call
on the loaded settings iff the loaded value is a non-empty mapping whose
`use_local_model` entry exists and is truthy, and otherwise makes no call;
it finishes without error iff it is not the case that the loaded value is a
non-empty mapping lacking the `use_local_model` key (in which case a
`KeyError` escapes). -/
theorem c1_activation_dispatch (plugin : PluginCtx) (st : WhisperState) :
    (activated plugin st).state.download_path
      = some (plugin.path ++ "/models") ∧
    (activated plugin st).state.get_instance_calls
      = st.get_instance_calls ++ acquisitionCalls plugin.load_settings ∧
    ((activated plugin st).error = none
      ↔ keyErrorCase plugin.load_settings = false) := by
  rw [activated_eq]
  refine ⟨rfl, rfl, ?_⟩
  cases hk : keyErrorCase plugin.load_settings <;> simp

/-- C7: for every plugin path and loaded-settings value, the two hooks are
extensionally identical — run from the same provider state they produce the
same download path (`<path>/models`), the same `get_instance` calls and the
same outcome; they differ only in how the plugin context is obtained. -/
theorem c7_hooks_equivalent (p : String) (s : Option RawSettings)
    (plugin : PluginCtx) (mh : MadHatterCtx) (cat : CatCtx)
    (st : WhisperState)
    (h1 : plugin.path = p) (h2 : plugin.load_settings = s)
    (h3 : mh.get_plugin.path = p)
    (h4 : cat.mad_hatter.get_plugin.load_settings = s) :
    activated plugin st = after_cat_bootstrap mh cat st ∧
    (activated plugin st).state.download_path = some (p ++ "/models") := by
  rw [after_cat_bootstrap_as_activated, activated_eq, activated_eq]
  constructor
  · simp [h1, h2, h3, h4]
  · simp [h1]

/-- Witness for C7 at a concrete path, loaded mapping and provider state. -/
theorem c7_hooks_equivalent_witness :
    (activated ⟨"p", some [("use_local_model", RawVal.vBool true)]⟩ ⟨none, []⟩
      = after_cat_bootstrap ⟨⟨"p", none⟩⟩
          ⟨⟨⟨"q", some [("use_local_model", RawVal.vBool true)]⟩⟩⟩
          ⟨none, []⟩) ∧
    (activated ⟨"p", some [("use_local_model", RawVal.vBool true)]⟩
        ⟨none, []⟩).state.download_path = some ("p" ++ "/models") :=
  c7_hooks_equivalent "p" (some [("use_local_model", RawVal.vBool true)])
    ⟨"p", some [("use_local_model", RawVal.vBool true)]⟩ ⟨⟨"p", none⟩⟩
    ⟨⟨⟨"q", some [("use_local_model", RawVal.vBool true)]⟩⟩⟩ ⟨none, []⟩
    rfl rfl rfl rfl

/-- C10: both hooks read the `use_local_model` flag by direct key indexing
on the raw loaded mapping — a non-empty mapping lacking that key makes each
hook raise an unhandled `KeyError` instead of skipping silently. -/
theorem c10_missing_key_raises (path : String) (s : RawSettings)
    (st : WhisperState)
    (hne : s ≠ []) (hmiss : List.lookup "use_local_model" s = none) :
    (activated ⟨path, some s⟩ st).error = some "KeyError: use_local_model" ∧
    ∀ (mh : MadHatterCtx) (cat : CatCtx),
        cat.mad_hatter.get_plugin.load_settings = some s →
        (after_cat_bootstrap mh cat st).error
          = some "KeyError: use_local_model" := by
  have hk : keyErrorCase (some s) = true := by
    cases s with
    | nil => exact absurd rfl hne
    | cons kv rest => simp [keyErrorCase, hmiss]
  constructor
  · rw [activated_eq]
    simp [hk]
  · intro mh cat hcat
    rw [after_cat_bootstrap_as_activated, activated_eq]
    simp [hcat, hk]

/-- Witness for C10 at a concrete non-empty mapping lacking the
`use_local_model` key, for both hooks. -/
theorem c10_missing_key_raises_witness :
    (activated ⟨"pp", some [("foo", RawVal.vInt 1)]⟩ ⟨none, []⟩).error
      = some "KeyError: use_local_model" ∧
    (after_cat_bootstrap ⟨⟨"pp", none⟩⟩
        ⟨⟨⟨"pp", some [("foo", RawVal.vInt 1)]⟩⟩⟩ ⟨none, []⟩).error
      = some "KeyError: use_local_model" := by
  have h := c10_missing_key_raises "pp" [("foo", RawVal.vInt 1)] ⟨none, []⟩
    (by simp) (by decide)
  exact ⟨h.1, h.2 ⟨⟨"pp", none⟩⟩ ⟨⟨⟨"pp", some [("foo", RawVal.vInt 1)]⟩⟩⟩ rfl⟩
